import Mathlib

/-!
Verification development for the offline-resilience layer of the foam
contractor PWA: the durable offline queue (services/offlineQueue.ts), the
retry-with-backoff loader, the staged data loader, the network-status
monitor, the optimistic-update suppression set and the realtime
reconciliation handlers (App.tsx).

The TypeScript is shallowly embedded: asynchronous functions become pure
Lean functions over explicit oracles (per-attempt results of remote calls),
side effects become event traces, and the persisted queue is an explicit
list value threaded through each operation.
-/

namespace Foam

/-! ### Data model (services/offlineQueue.ts) -/

/-- The four remote resource families. -/
inductive Collection where
  | customers
  | estimates
  | inventory
  | settings
deriving DecidableEq, Repr

/-- Kind of a deferred write: save or delete. -/
inductive OpKind where
  | save
  | delete
deriving DecidableEq, Repr

/-- Payloads are stored uninterpreted by the queue (JSON in localStorage); the
queue logic never inspects them, so they are modelled as strings. -/
abbrev Payload : Type := String

/-- QueuedOperation record, from services/offlineQueue.ts lines 6-13. -/
structure QueuedOperation where
  id : String
  timestamp : Nat
  operation : OpKind
  collection : Collection
  data : Payload
  retry_count : Nat
deriving DecidableEq, Repr

/-- MAX_RETRIES constant, offlineQueue.ts line 16. -/
def MAX_RETRIES : Nat := 3

/-- Name of a collection as used when building queued-operation ids. -/
def collectionName : Collection → String
  | .customers => "customers"
  | .estimates => "estimates"
  | .inventory => "inventory"
  | .settings => "settings"

/-- queueOperation (offlineQueue.ts lines 21-42): builds a new record with
retry_count 0 and an id of shape collection_timestamp_random, and appends it
to the persisted list.  The current time and the random suffix are explicit
parameters of the embedding. -/
def queueOperation (now : Nat) (rand : String) (operation : OpKind)
    (collection : Collection) (data : Payload)
    (queue : List QueuedOperation) : List QueuedOperation :=
  queue ++ [{ id := collectionName collection ++ "_" ++ toString now ++ "_" ++ rand
            , timestamp := now
            , operation := operation
            , collection := collection
            , data := data
            , retry_count := 0 }]

/-- removeFromQueue (offlineQueue.ts lines 71-80): filters the stored list
by id; removing a nonexistent id is a no-op. -/
def removeFromQueue (operationId : String) (queue : List QueuedOperation) :
    List QueuedOperation :=
  queue.filter (fun op => op.id != operationId)

/-- getQueueStatus (offlineQueue.ts lines 189-195). -/
def getQueueStatus (queue : List QueuedOperation) : Nat × Option Nat :=
  (queue.length,
   if queue.length > 0 then some (queue.foldr (fun op m => min op.timestamp m)
     ((queue.map (fun op => op.timestamp)).foldr max 0)) else none)

/-- The record of optional sync functions passed to processQueue
(offlineQueue.ts lines 99-106).  Each function is modelled as a pure map
from the payload to whether the remote call succeeds. -/
structure SyncFns where
  saveCustomer : Option (Payload → Bool)
  saveEstimate : Option (Payload → Bool)
  saveInventory : Option (Payload → Bool)
  saveSettings : Option (Payload → Bool)
  deleteCustomer : Option (Payload → Bool)
  deleteEstimate : Option (Payload → Bool)

/-- Sync-function selection inside the processQueue loop (offlineQueue.ts
lines 122-149): save has a case per collection, delete only has cases for
customers and estimates, so a queued delete on inventory or settings
selects no function at all. -/
def selectSyncFn (fns : SyncFns) (operation : OpKind) (collection : Collection) :
    Option (Payload → Bool) :=
  match operation, collection with
  | .save, .customers => fns.saveCustomer
  | .save, .estimates => fns.saveEstimate
  | .save, .inventory => fns.saveInventory
  | .save, .settings => fns.saveSettings
  | .delete, .customers => fns.deleteCustomer
  | .delete, .estimates => fns.deleteEstimate
  | .delete, .inventory => none
  | .delete, .settings => none

/-- retry_count increment performed on a failed replay (offlineQueue.ts
line 166). -/
def bumpRetry (op : QueuedOperation) : QueuedOperation :=
  { op with retry_count := op.retry_count + 1 }

/-- Result of one drain: the success and failed counters, the queue that is
persisted back, and the list of operations whose sync function was actually
invoked (the replay trace), in iteration order. -/
structure ProcessResult where
  success : Nat
  failed : Nat
  newQueue : List QueuedOperation
  attempted : List QueuedOperation
deriving Repr

/-- The for-loop body of processQueue (offlineQueue.ts lines 120-177),
folded over the queue front to back.  A missing sync function counts the
operation as failed and drops it (the source continues without pushing it
onto updatedQueue); a failing replay bumps retry_count and keeps the
operation only while the bumped count is below MAX_RETRIES. -/
def processQueueGo (fns : SyncFns) : List QueuedOperation → ProcessResult
  | [] => { success := 0, failed := 0, newQueue := [], attempted := [] }
  | op :: rest =>
    let r := processQueueGo fns rest
    match selectSyncFn fns op.operation op.collection with
    | none =>
        { success := r.success, failed := r.failed + 1
        , newQueue := r.newQueue, attempted := r.attempted }
    | some fn =>
        if fn op.data then
          { success := r.success + 1, failed := r.failed
          , newQueue := r.newQueue, attempted := op :: r.attempted }
        else
          let op2 := bumpRetry op
          if op2.retry_count < MAX_RETRIES then
            { success := r.success, failed := r.failed + 1
            , newQueue := op2 :: r.newQueue, attempted := op :: r.attempted }
          else
            { success := r.success, failed := r.failed + 1
            , newQueue := r.newQueue, attempted := op :: r.attempted }

/-- processQueue (offlineQueue.ts lines 98-184): early-returns zero counts
on an empty queue, otherwise runs the loop and persists the updated queue. -/
def processQueue (fns : SyncFns) (queue : List QueuedOperation) : ProcessResult :=
  if queue.isEmpty then
    { success := 0, failed := 0, newQueue := [], attempted := [] }
  else
    processQueueGo fns queue

/-! ### Remote operation executor (App.tsx, loadDataWithRetry) -/

/-- Observable outcome of one loadDataWithRetry call: the settled result,
the number of times the operation was invoked, and the list of backoff
delays awaited between attempts, in order. -/
structure RetryTrace (α : Type) where
  result : Except String α
  attempts : Nat
  delays : List Nat
deriving Repr

/-- The body of the retry for-loop (App.tsx lines 222-229), with the loop
condition i < retries carried as explicit fuel (fuel = retries - i).  On an
error at the last index the error is rethrown; otherwise the loop awaits
delay * 2 ^ i and retries. -/
def retryGo {α : Type} (loadFn : Nat → Except String α) (retries delay : Nat) :
    Nat → Nat → RetryTrace α
  | 0, _ => { result := .error "Max retries exceeded", attempts := 0, delays := [] }
  | fuel + 1, i =>
    match loadFn i with
    | .ok a => { result := .ok a, attempts := 1, delays := [] }
    | .error e =>
      if i = retries - 1 then
        { result := .error e, attempts := 1, delays := [] }
      else
        let r := retryGo loadFn retries delay fuel (i + 1)
        { result := r.result, attempts := r.attempts + 1
        , delays := delay * 2 ^ i :: r.delays }

/-- loadDataWithRetry (App.tsx lines 217-231), defaults retries = 3 and
delay = 1000.  The oracle loadFn gives the outcome of each attempt by
index. -/
def loadDataWithRetry {α : Type} (loadFn : Nat → Except String α)
    (retries : Nat := 3) (delay : Nat := 1000) : RetryTrace α :=
  retryGo loadFn retries delay retries 0

/-! ### Staged loader (App.tsx, loadData, lines 233-276)

The four collections are fetched through loadDataWithRetry and merged into
React state.  The fetched values are uninterpreted tokens to the loader, so they are
modelled as Nat tokens; the per-attempt outcome of each remote fetch is an
oracle field. -/

/-- Per-attempt outcomes of the four staged fetches. -/
structure LoadOracle where
  getSettings : Nat → Except String Nat
  getCustomers : Nat → Except String Nat
  getEstimates : Nat → Except String Nat
  getInventory : Nat → Except String Nat

/-- Application state touched by loadData. -/
structure LoadState where
  settings : Nat
  customers : Nat
  estimates : Nat
  inventory : Nat
  initialLoadDone : Bool
  dataLoadError : Option String
  isSyncing : Bool
deriving DecidableEq, Repr

/-- Observable events of one load cycle, in program order. -/
inductive LoadEvent where
  | fetchSettings
  | mergeSettings (v : Nat)
  | fetchCustomers
  | fetchEstimates
  | mergeCustomers (v : Nat)
  | mergeEstimates (v : Nat)
  | fetchInventory
  | mergeInventory (v : Nat)
  | markInitialLoadDone
  | recordError (msg : String)
  | toastSyncError
deriving DecidableEq, Repr

/-- Trace and final state of one loadData run. -/
structure LoadResult where
  trace : List LoadEvent
  state : LoadState
deriving Repr

/-- Settled outcome of one staged fetch: loadDataWithRetry with the default
three attempts and 1000 ms initial delay (App.tsx lines 239, 246-247, 255). -/
def phaseResult (fetch : Nat → Except String Nat) : Except String Nat :=
  (loadDataWithRetry fetch 3 1000).result

/-- The catch and finally blocks of loadData (App.tsx lines 260-271): the
load error is recorded unconditionally, the toast is shown only when this
was not the first load, and isSyncing is reset only when the cycle was not
cancelled.  No collection state is cleared. -/
def loadFail (tr : List LoadEvent) (st : LoadState) (e : String)
    (isFirstLoad cancelledFinally : Bool) : LoadResult :=
  let st2 := { st with dataLoadError := some e }
  { trace := tr ++ [LoadEvent.recordError e]
      ++ (if isFirstLoad then [] else [LoadEvent.toastSyncError])
  , state := if cancelledFinally then st2 else { st2 with isSyncing := false } }

/-- loadData (App.tsx lines 233-276).  Phase 1 fetches settings and merges;
phase 2 dispatches the customers and estimates fetches together and merges
both once both resolve (on Promise.all rejection the customers error is the
one reported when the customers fetch failed, otherwise the estimates
error); phase 3 fetches inventory, merges it and marks the initial load
done.  The booleans c1 c2 c3 cf are the values the cancelled flag has at
the four checkpoint reads (a cancelled cycle skips its state merges and the
finally isSyncing reset, but the catch block is unguarded). -/
def loadData (o : LoadOracle) (isFirstLoad c1 c2 c3 cf : Bool)
    (s0 : LoadState) : LoadResult :=
  let st0 : LoadState := { s0 with isSyncing := true, dataLoadError := none }
  match phaseResult o.getSettings with
  | .error e => loadFail [LoadEvent.fetchSettings] st0 e isFirstLoad cf
  | .ok s =>
    let st1 := if c1 then st0 else { st0 with settings := s }
    let tr1 := [LoadEvent.fetchSettings]
      ++ (if c1 then [] else [LoadEvent.mergeSettings s])
    let tr2 := tr1 ++ [LoadEvent.fetchCustomers, LoadEvent.fetchEstimates]
    match phaseResult o.getCustomers, phaseResult o.getEstimates with
    | .error ec, _ => loadFail tr2 st1 ec isFirstLoad cf
    | .ok _, .error ee => loadFail tr2 st1 ee isFirstLoad cf
    | .ok c, .ok e =>
      let st2 := if c2 then st1 else { st1 with customers := c, estimates := e }
      let tr3 := tr2 ++ (if c2 then [] else
        [LoadEvent.mergeCustomers c, LoadEvent.mergeEstimates e])
      let tr4 := tr3 ++ [LoadEvent.fetchInventory]
      match phaseResult o.getInventory with
      | .error ei => loadFail tr4 st2 ei isFirstLoad cf
      | .ok i =>
        let st3 := if c3 then st2 else
          { st2 with inventory := i, initialLoadDone := true }
        let tr5 := tr4 ++ (if c3 then [] else
          [LoadEvent.mergeInventory i, LoadEvent.markInitialLoadDone])
        { trace := tr5
        , state := if cf then st3 else { st3 with isSyncing := false } }

/-! ### Network-status monitor (App.tsx, handleOnline, lines 152-205) -/

/-- Observable events of the online-transition handler. -/
inductive OnlineEvent where
  | toastRestored
  | toastSyncing (n : Nat)
  | toastSynced (n : Nat)
  | toastFailed (n : Nat)
  | refresh
deriving DecidableEq, Repr

/-- handleOnline (App.tsx lines 152-205): always toasts the restored
notice; with a signed-in user and a non-empty queue it toasts the syncing
count, drains the queue through processQueue, toasts the success count and
triggers the refresh (setLastUpdate) only when at least one replay
succeeded, and toasts the failed count only when at least one replay
failed; with an empty queue it triggers the refresh directly.  Returns the
emitted events in order and the persisted queue afterwards. -/
def handleOnline (hasUser : Bool) (fns : SyncFns)
    (queue : List QueuedOperation) : List OnlineEvent × List QueuedOperation :=
  if !hasUser then ([OnlineEvent.toastRestored], queue)
  else if queue.length > 0 then
    let r := processQueue fns queue
    ([OnlineEvent.toastRestored, OnlineEvent.toastSyncing queue.length]
       ++ (if r.success > 0 then
             [OnlineEvent.toastSynced r.success, OnlineEvent.refresh] else [])
       ++ (if r.failed > 0 then [OnlineEvent.toastFailed r.failed] else []),
     r.newQueue)
  else ([OnlineEvent.toastRestored, OnlineEvent.refresh], queue)

/-! ### Entities

Fields not read by the embedded logic (presentational strings, nested
pricing data) are omitted; numeric fields are rationals.  The realtime
handlers receive entities after the mapXPayload mappers have run, so the
handlers are modelled directly on the mapped entity values. -/

/-- JobStatus (types.ts). -/
inductive JobStatus where
  | DRAFT
  | WORK_ORDER
  | INVOICED
  | PAID
  | ARCHIVED
deriving DecidableEq, Repr

/-- One line item of an estimate, with the fields read by
getEstimateInventoryDeductions.  Optional fields are undefined-able in the
source; an empty-string inventoryItemId is falsy there and is kept as a
value here, with the falsiness check made explicit at the use site. -/
structure EstimateLineItem where
  inventoryItemId : Option String
  inventoryQuantityUsed : Option ℚ
  quantity : Option ℚ
deriving DecidableEq, Repr

/-- Estimate entity (fields read by the core logic). -/
structure Estimate where
  id : String
  number : String
  customerId : String
  jobName : String
  status : JobStatus
  inventoryDeducted : Bool
  setsRequiredOpen : ℚ
  setsRequiredClosed : ℚ
  items : List EstimateLineItem
  total : ℚ
deriving DecidableEq, Repr

/-- Inventory item entity. -/
structure InventoryItem where
  id : String
  name : String
  category : String
  quantity : ℚ
  unit : String
  minLevel : ℚ
deriving DecidableEq, Repr

/-- Customer entity. -/
structure Customer where
  id : String
  name : String
  companyName : String
  email : String
  phone : String
deriving DecidableEq, Repr

/-- AppSettings entity (shape produced by mapSettingsPayload). -/
structure AppSettings where
  companyName : String
  companyAddress : String
  companyPhone : String
  companyEmail : String
  logoUrl : Option String
  openCellYield : ℚ
  closedCellYield : ℚ
  openCellCost : ℚ
  closedCellCost : ℚ
  laborRate : ℚ
  taxRate : ℚ
deriving DecidableEq, Repr

/-! ### Realtime reconciliation handlers (App.tsx, lines 286-360) -/

/-- A realtime change event after mapping: insert and update carry the
mapped new row, del carries the id found on the old row (possibly empty,
which is falsy in the source). -/
inductive RTEvent (ε : Type) where
  | insert (new : ε)
  | update (new : ε)
  | del (oldId : String)
deriving DecidableEq, Repr

/-- The id the guard extracts: payload.new?.id or else payload.old?.id,
where the or-else also skips an empty (falsy) id.  none means the guard is
skipped entirely. -/
def rtEventId {ε : Type} (getId : ε → String) : RTEvent ε → Option String
  | .insert n | .update n => if getId n = "" then none else some (getId n)
  | .del oldId => if oldId = "" then none else some oldId

/-- The state transformation of an unsuppressed inventory event (App.tsx
lines 293-305): insert appends when the id is not already present, update
replaces by id, delete filters by id when the old id is truthy. -/
def inventoryApplyEvent (ev : RTEvent InventoryItem)
    (prev : List InventoryItem) : List InventoryItem :=
  match ev with
  | .insert n => if prev.any (fun i => i.id == n.id) then prev else prev ++ [n]
  | .update n => prev.map (fun i => if i.id == n.id then n else i)
  | .del oldId => if oldId = "" then prev else prev.filter (fun i => i.id != oldId)

/-- Inventory realtime handler (App.tsx lines 286-307): events whose id is
in the suppression set are dropped, everything else is applied. -/
def inventoryRealtimeHandler (suppressed : List String)
    (ev : RTEvent InventoryItem) (prev : List InventoryItem) :
    List InventoryItem :=
  match rtEventId (fun i => i.id) ev with
  | some i => if suppressed.contains i then prev else inventoryApplyEvent ev prev
  | none => inventoryApplyEvent ev prev

/-- The state transformation of an unsuppressed estimates event (App.tsx
lines 315-327): same shape as for inventory, except that insert prepends. -/
def estimatesApplyEvent (ev : RTEvent Estimate) (prev : List Estimate) :
    List Estimate :=
  match ev with
  | .insert n => if prev.any (fun e => e.id == n.id) then prev else n :: prev
  | .update n => prev.map (fun e => if e.id == n.id then n else e)
  | .del oldId => if oldId = "" then prev else prev.filter (fun e => e.id != oldId)

/-- Estimates realtime handler (App.tsx lines 308-329). -/
def estimatesRealtimeHandler (suppressed : List String)
    (ev : RTEvent Estimate) (prev : List Estimate) : List Estimate :=
  match rtEventId (fun e => e.id) ev with
  | some i => if suppressed.contains i then prev else estimatesApplyEvent ev prev
  | none => estimatesApplyEvent ev prev

/-- The state transformation of an unsuppressed customers event (App.tsx
lines 336-348): insert prepends. -/
def customersApplyEvent (ev : RTEvent Customer) (prev : List Customer) :
    List Customer :=
  match ev with
  | .insert n => if prev.any (fun c => c.id == n.id) then prev else n :: prev
  | .update n => prev.map (fun c => if c.id == n.id then n else c)
  | .del oldId => if oldId = "" then prev else prev.filter (fun c => c.id != oldId)

/-- Customers realtime handler (App.tsx lines 330-349). -/
def customersRealtimeHandler (suppressed : List String)
    (ev : RTEvent Customer) (prev : List Customer) : List Customer :=
  match rtEventId (fun c => c.id) ev with
  | some i => if suppressed.contains i then prev else customersApplyEvent ev prev
  | none => customersApplyEvent ev prev

/-- Event kind for the settings handler (the mapped row value is passed
separately). -/
inductive RTKind where
  | insert
  | update
  | del
deriving DecidableEq, Repr

/-- Settings realtime handler (App.tsx lines 351-360): the source applies
mapSettingsPayload(payload.new) on INSERT and UPDATE unconditionally; it
extracts no id and consults no suppression set, so the suppression list and
the id of the affected settings row are parameters this function ignores.
DELETE events are not handled and leave the state unchanged. -/
def settingsRealtimeHandler (_suppressed : List String) (_rowId : String)
    (kind : RTKind) (updated : AppSettings) (prev : AppSettings) : AppSettings :=
  match kind with
  | .insert | .update => updated
  | .del => prev

/-! ### Optimistic status change (App.tsx, handleStatusChange, lines 577-657)
with its inventory helpers (lines 467-526). -/

/-- Substring test, modelling the JavaScript String.includes. -/
def strContains (s pat : String) : Bool :=
  (List.range (s.length + 1)).any (fun i => pat.isPrefixOf (s.drop i))

/-- The deductions.set(k, (deductions.get(k) or 0) + q) pattern on the
insertion-ordered Map (App.tsx lines 476, 479, 486): an existing key keeps
its position and accumulates, a new key is appended. -/
def mapUpsertAdd (m : List (String × ℚ)) (k : String) (q : ℚ) :
    List (String × ℚ) :=
  if m.any (fun p => p.1 == k) then
    m.map (fun p => if p.1 == k then (p.1, p.2 + q) else p)
  else m ++ [(k, q)]

/-- Number(x.toFixed(2)) on a nonnegative quantity, modelled as rounding to
two decimal places. -/
def toFixed2 (q : ℚ) : ℚ := (round (q * 100) : ℚ) / 100

/-- getEstimateInventoryDeductions (App.tsx lines 467-490): the open-cell
and closed-cell set requirements target the inventory item with id 1 or 2
or whose lowercased name contains the foam kind, then each line item with a
truthy inventoryItemId and positive quantity adds to the map. -/
def getEstimateInventoryDeductions (estimate : Estimate)
    (currentInventory : List InventoryItem) : List (String × ℚ) :=
  let openRequired := estimate.setsRequiredOpen
  let closedRequired := estimate.setsRequiredClosed
  let openCellItem := currentInventory.find?
    (fun i => i.id == "1" || strContains i.name.toLower "open cell")
  let closedCellItem := currentInventory.find?
    (fun i => i.id == "2" || strContains i.name.toLower "closed cell")
  let d1 := match openCellItem with
    | some it => if 0 < openRequired then mapUpsertAdd [] it.id openRequired else []
    | none => []
  let d2 := match closedCellItem with
    | some it => if 0 < closedRequired then mapUpsertAdd d1 it.id closedRequired else d1
    | none => d1
  estimate.items.foldl (fun m item =>
    match item.inventoryItemId with
    | none => m
    | some iid =>
      if iid = "" then m
      else
        let quantityUsed := item.inventoryQuantityUsed.getD (item.quantity.getD 0)
        if quantityUsed ≤ 0 then m else mapUpsertAdd m iid quantityUsed) d2

/-- Deduct or restock mode of applyEstimateInventoryChange. -/
inductive ChangeMode where
  | deduct
  | restock
deriving DecidableEq, Repr

/-- Result of applyEstimateInventoryChange. -/
structure ApplyChangeResult where
  updatedInventory : List InventoryItem
  details : List String
deriving Repr

/-- applyEstimateInventoryChange (App.tsx lines 492-519): with no
deductions the inventory is returned untouched with empty details;
otherwise each matched item has its quantity reduced (clamped at 0) or
restocked, both rounded to two decimals, and a detail string is produced
per deduction. -/
def applyEstimateInventoryChange (estimate : Estimate)
    (currentInventory : List InventoryItem) (mode : ChangeMode) :
    ApplyChangeResult :=
  let deductions := getEstimateInventoryDeductions estimate currentInventory
  if deductions.length = 0 then
    { updatedInventory := currentInventory, details := [] }
  else
    { updatedInventory := currentInventory.map (fun item =>
        match deductions.find? (fun d => d.1 == item.id) with
        | none => item
        | some entry =>
          match mode with
          | .deduct =>
            { item with quantity := toFixed2 (max 0 (item.quantity - entry.2)) }
          | .restock =>
            { item with quantity := toFixed2 (item.quantity + entry.2) })
    , details := deductions.map (fun d =>
        let target := currentInventory.find? (fun i => i.id == d.1)
        toString d.2 ++ " " ++ (match target with
          | some t => t.name
          | none => "Item")) }

/-- Observable actions of the user-initiated write path.  The enqueueOp
action is what offlineQueue.queueOperation would contribute; it is part of
the observation alphabet so that its absence from every emitted trace is a
statement about the code, not about the alphabet. -/
inductive WriteAction where
  | toast (msg : String)
  | schedulePdf (estId : String)
  | addSuppression (id : String)
  | setEstimatesOptimistic (e : Estimate)
  | setInventoryOptimistic (inv : List InventoryItem)
  | remoteSaveEstimate (e : Estimate)
  | remoteSaveInventory (inv : List InventoryItem)
  | enqueueOp (kind : OpKind) (collection : Collection)
deriving DecidableEq, Repr

/-- Outcome of the else-if chain at the top of handleStatusChange (App.tsx
lines 578-604): the updated estimate, the possibly-updated inventory,
whether the inventory changed, and the toast emitted. -/
structure BranchOut where
  est2 : Estimate
  inv2 : List InventoryItem
  invChanged : Bool
  toasts : List WriteAction
deriving Repr

/-- The else-if chain of handleStatusChange (App.tsx lines 582-604). -/
def statusBranch (est : Estimate) (inventory : List InventoryItem)
    (newStatus : JobStatus) : BranchOut :=
  let est1 : Estimate := { est with status := newStatus }
  if newStatus = JobStatus.WORK_ORDER ∧ est.inventoryDeducted = false then
    let r := applyEstimateInventoryChange est inventory ChangeMode.deduct
    if r.details.length > 0 then
      { est2 := { est1 with inventoryDeducted := true }
      , inv2 := r.updatedInventory, invChanged := true
      , toasts := [WriteAction.toast
          ("Job Sold! Deducted: " ++ String.intercalate ", " r.details)] }
    else
      { est2 := est1, inv2 := inventory, invChanged := false
      , toasts := [WriteAction.toast "Work Order Created"] }
  else if newStatus = JobStatus.INVOICED then
    { est2 := est1, inv2 := inventory, invChanged := false
    , toasts := [WriteAction.toast "Invoice Created"] }
  else if newStatus = JobStatus.PAID then
    { est2 := est1, inv2 := inventory, invChanged := false
    , toasts := [WriteAction.toast "Payment Recorded!"] }
  else if newStatus = JobStatus.ARCHIVED then
    { est2 := est1, inv2 := inventory, invChanged := false
    , toasts := [WriteAction.toast "Job Archived"] }
  else if newStatus = JobStatus.DRAFT ∧ est.inventoryDeducted = true then
    let r := applyEstimateInventoryChange est inventory ChangeMode.restock
    { est2 := { est1 with inventoryDeducted := false }
    , inv2 := r.updatedInventory, invChanged := true
    , toasts := [WriteAction.toast "Job Reverted to Draft. Materials Restocked."] }
  else
    { est2 := est1, inv2 := inventory, invChanged := false, toasts := [] }

/-- Full result of handleStatusChange: the emitted actions in program
order, the offline queue afterwards (threaded through untouched, because
the source never calls queueOperation), the ids added to the suppression
set, and the optimistic values. -/
structure StatusChangeResult where
  actions : List WriteAction
  queue : List QueuedOperation
  suppressionAdds : List String
  updatedEst : Estimate
  updatedInventory : List InventoryItem
  inventoryChanged : Bool
deriving Repr

/-- handleStatusChange (App.tsx lines 577-657).  The handler never reads
the connectivity state: the isOnline parameter mirrors the App state being
available to it but unread, and the offline queue is returned unchanged.
After the branch it schedules the PDF modal for WORK_ORDER and INVOICED,
adds the estimate id (and, when the inventory changed, every id of the
updated inventory list) to the suppression set, applies the optimistic
state updates, and dispatches the background remote saves. -/
def handleStatusChange ( _isOnline : Bool) (queue : List QueuedOperation)
    (est : Estimate) (inventory : List InventoryItem)
    (newStatus : JobStatus) : StatusChangeResult :=
  let b := statusBranch est inventory newStatus
  let pdfActs : List WriteAction :=
    if newStatus = JobStatus.WORK_ORDER ∨ newStatus = JobStatus.INVOICED then
      [WriteAction.schedulePdf est.id]
    else []
  let supIds : List String :=
    est.id :: (if b.invChanged then b.inv2.map (fun i => i.id) else [])
  let supActs : List WriteAction := supIds.map WriteAction.addSuppression
  let optimActs : List WriteAction :=
    [WriteAction.setEstimatesOptimistic b.est2]
      ++ (if b.invChanged then [WriteAction.setInventoryOptimistic b.inv2] else [])
  let bgActs : List WriteAction :=
    [WriteAction.remoteSaveEstimate b.est2]
      ++ (if b.invChanged then [WriteAction.remoteSaveInventory b.inv2] else [])
  { actions := b.toasts ++ pdfActs ++ supActs ++ optimActs ++ bgActs
  , queue := queue
  , suppressionAdds := supIds
  , updatedEst := b.est2
  , updatedInventory := b.inv2
  , inventoryChanged := b.invChanged }

/-! ### Suppression window timing (App.tsx lines 618-623 and 648-656)

Ids are added when the optimistic update is applied; the removal is
scheduled in the finally of the background sync, 2000 ms after the sync
settles.  The finally runs whether the saves succeeded or failed (each
background task has its own catch, so the Promise.all always settles). -/

/-- Instant at which the scheduled deletion runs: sync settle time plus the
2000 ms grace delay; the sync outcome is ignored by the finally. -/
def suppressionRemovalTime (tSettle : Nat) ( _syncOk : Bool) : Nat :=
  tSettle + 2000

/-- The suppression entries from one handleStatusChange, as seen at time t:
present from the add instant until the scheduled removal instant. -/
def activeSuppressed (adds : List String) (tAdd tSettle t : Nat) :
    List String :=
  if tAdd ≤ t ∧ t < tSettle + 2000 then adds else []

/-! ### Shared helper lemmas and concrete fixtures -/

/-- The replay trace of the drain loop is exactly the sub-list of the queue
that has a sync function, in queue order. -/
theorem processQueueGo_attempted (fns : SyncFns) :
    ∀ q : List QueuedOperation,
      (processQueueGo fns q).attempted
        = q.filter (fun o => (selectSyncFn fns o.operation o.collection).isSome) := by
  intro q
  induction q with
  | nil => rfl
  | cons op rest ih =>
    simp only [processQueueGo, List.filter_cons]
    cases hsel : selectSyncFn fns op.operation op.collection with
    | none => simp [hsel, ih]
    | some fn =>
      cases hf : fn op.data with
      | true => simp [hsel, hf, ih]
      | false =>
        by_cases hlt : (bumpRetry op).retry_count < MAX_RETRIES <;>
          simp [hsel, hf, hlt, ih]

/-- Concrete sync-function record mirroring the six functions handleOnline
passes to processQueue, with every remote call failing. -/
def appSyncFnsFail : SyncFns :=
  { saveCustomer := some (fun _ => false)
  , saveEstimate := some (fun _ => false)
  , saveInventory := some (fun _ => false)
  , saveSettings := some (fun _ => false)
  , deleteCustomer := some (fun _ => false)
  , deleteEstimate := some (fun _ => false) }

/-- A concrete queued save that will keep failing on replay. -/
def cexSaveOp : QueuedOperation :=
  { id := "customers_1_x", timestamp := 1, operation := OpKind.save
  , collection := Collection.customers, data := "p", retry_count := 0 }

/-- A concrete queued delete on the inventory collection, for which
processQueue has no sync-function case. -/
def cexDeleteInventoryOp : QueuedOperation :=
  { id := "inventory_2_y", timestamp := 2, operation := OpKind.delete
  , collection := Collection.inventory, data := "q", retry_count := 0 }

/-! ### C3: retry wrapper makes exactly 3 attempts with 1s and 2s backoff -/

/-- C3.  An always-rejecting operation run through loadDataWithRetry with
retries 3 and initial delay 1000 is invoked exactly 3 times, with waits of
1000 ms and then 2000 ms between consecutive attempts, and the wrapper
rejects with the final attempt error rather than swallowing it. -/
theorem c3_retry_three_attempts_backoff (α : Type) (errs : Nat → String) :
    loadDataWithRetry (fun i => (Except.error (errs i) : Except String α)) 3 1000
      = { result := Except.error (errs 2), attempts := 3, delays := [1000, 2000] } :=
  rfl

/-! ### C7: drain replays in enqueue order, no dedup, enqueue appends -/

/-- C7.  processQueue replays queued operations one at a time in exactly
the stored (enqueue) order: its replay trace is the order-preserving
sub-list of the queue consisting of the operations that have a sync
function, with no deduplication, so duplicate writes to the same entity are
replayed in order.  queueOperation preserves every existing entry in place
and adds the new record at the end. -/
theorem c7_replay_enqueue_order (fns : SyncFns) (q : List QueuedOperation)
    (now : Nat) (rand : String) (kind : OpKind) (col : Collection) (d : Payload) :
    (processQueue fns q).attempted
        = q.filter (fun o => (selectSyncFn fns o.operation o.collection).isSome)
      ∧ (queueOperation now rand kind col d q).take q.length = q
      ∧ (queueOperation now rand kind col d q).length = q.length + 1 := by
  refine ⟨?_, ?_, ?_⟩
  · cases q with
    | nil => rfl
    | cons op rest =>
      simp only [processQueue, List.isEmpty_cons, Bool.false_eq_true, if_false]
      exact processQueueGo_attempted fns (op :: rest)
  · simp [queueOperation]
  · simp [queueOperation]

/-! ### C6: the retry cap on queued operations -/

/-- C6 counterexample.  The claim states that no queued operation is
discarded before 3 failed replay attempts.  A queued delete on the
inventory collection has no sync-function case in processQueue, so in its
very first drain it is never replayed (empty replay trace), is counted as
failed once, and is dropped from the queue permanently. -/
theorem c6_counterexample_first_drain_discard :
    (processQueue appSyncFnsFail [cexDeleteInventoryOp]).newQueue = []
      ∧ (processQueue appSyncFnsFail [cexDeleteInventoryOp]).attempted = []
      ∧ (processQueue appSyncFnsFail [cexDeleteInventoryOp]).failed = 1 :=
  ⟨rfl, rfl, rfl⟩

/-- C6 amended.  For a queued operation that selects a sync function whose
replay always fails, starting from retry count 0: drain 1 replays it and
keeps it with retry count 1, drain 2 replays it and keeps it with retry
count 2, drain 3 replays it and discards it (retry count reaches the
maximum of 3), and drain 4 does not replay it.  A queued operation that
selects no sync function is dropped in its first drain with no replay. -/
theorem c6_amended_retry_cap (fns : SyncFns) (op op2 : QueuedOperation)
    (f : Payload → Bool)
    (hsel : selectSyncFn fns op.operation op.collection = some f)
    (hfail : ∀ d, f d = false)
    (h0 : op.retry_count = 0)
    (hnone : selectSyncFn fns op2.operation op2.collection = none) :
    (processQueue fns [op]).attempted = [op]
      ∧ (processQueue fns [op]).newQueue = [bumpRetry op]
      ∧ (processQueue fns [bumpRetry op]).attempted = [bumpRetry op]
      ∧ (processQueue fns [bumpRetry op]).newQueue = [bumpRetry (bumpRetry op)]
      ∧ (processQueue fns [bumpRetry (bumpRetry op)]).attempted
          = [bumpRetry (bumpRetry op)]
      ∧ (processQueue fns [bumpRetry (bumpRetry op)]).newQueue = []
      ∧ (processQueue fns []).attempted = []
      ∧ (processQueue fns [op2]).attempted = []
      ∧ (processQueue fns [op2]).newQueue = [] := by
  have hb1 : (bumpRetry op).retry_count = 1 := by simp [bumpRetry, h0]
  have hb2 : (bumpRetry (bumpRetry op)).retry_count = 2 := by simp [bumpRetry, h0]
  refine ⟨?_, ?_, ?_, ?_, ?_, ?_, rfl, ?_, ?_⟩ <;>
    simp [processQueue, processQueueGo, bumpRetry, hsel, hfail, hnone,
      MAX_RETRIES, h0, hnone]

/-- C6 witness: the amended facts evaluated on the concrete always-failing
save and the concrete inventory delete. -/
theorem c6_amended_retry_cap_witness :
    (processQueue appSyncFnsFail [cexSaveOp]).attempted = [cexSaveOp]
      ∧ (processQueue appSyncFnsFail [cexSaveOp]).newQueue = [bumpRetry cexSaveOp]
      ∧ (processQueue appSyncFnsFail [bumpRetry cexSaveOp]).attempted
          = [bumpRetry cexSaveOp]
      ∧ (processQueue appSyncFnsFail [bumpRetry cexSaveOp]).newQueue
          = [bumpRetry (bumpRetry cexSaveOp)]
      ∧ (processQueue appSyncFnsFail [bumpRetry (bumpRetry cexSaveOp)]).attempted
          = [bumpRetry (bumpRetry cexSaveOp)]
      ∧ (processQueue appSyncFnsFail [bumpRetry (bumpRetry cexSaveOp)]).newQueue = []
      ∧ (processQueue appSyncFnsFail []).attempted = []
      ∧ (processQueue appSyncFnsFail [cexDeleteInventoryOp]).attempted = []
      ∧ (processQueue appSyncFnsFail [cexDeleteInventoryOp]).newQueue = [] :=
  c6_amended_retry_cap appSyncFnsFail cexSaveOp cexDeleteInventoryOp
    (fun _ => false) rfl (fun _ => rfl) rfl rfl

/-! ### C2: the offline-to-online transition -/

/-- C2 counterexample.  The claim states that exactly one loader refresh
cycle is triggered after the transition regardless of whether the replays
succeeded.  With a signed-in user and a non-empty queue whose single replay
fails, handleOnline emits no refresh at all: the setLastUpdate call is
reached only when at least one replay succeeded. -/
theorem c2_counterexample_no_refresh_when_all_fail :
    (handleOnline true appSyncFnsFail [cexSaveOp]).1.count OnlineEvent.refresh = 0
      ∧ 0 < ([cexSaveOp] : List QueuedOperation).length
      ∧ (processQueue appSyncFnsFail [cexSaveOp]).failed = 1 :=
  ⟨rfl, Nat.zero_lt_one, rfl⟩

/-- C2 amended.  On an offline-to-online transition with a signed-in user:
the connection-restored notice is always the first emitted event; with a
non-empty queue the syncing notice is emitted once, the queue is drained
through processQueue and the drained queue persisted, the synced count is
toasted exactly when at least one replay succeeded and the failed count
exactly when at least one failed; the loader refresh is emitted exactly
once when the queue was empty or at least one replay succeeded, and not at
all when every replay failed. -/
theorem c2_amended_online_transition (fns : SyncFns) (queue : List QueuedOperation) :
    (handleOnline true fns queue).1.head? = some OnlineEvent.toastRestored
      ∧ (handleOnline true fns queue).1.count OnlineEvent.refresh
          = (if queue.isEmpty then 1
             else if 0 < (processQueue fns queue).success then 1 else 0)
      ∧ (handleOnline true fns queue).2
          = (if queue.isEmpty then queue else (processQueue fns queue).newQueue)
      ∧ (handleOnline true fns queue).1.count (OnlineEvent.toastSyncing queue.length)
          = (if queue.isEmpty then 0 else 1)
      ∧ (handleOnline true fns queue).1.count
            (OnlineEvent.toastSynced (processQueue fns queue).success)
          = (if queue.isEmpty then 0
             else if 0 < (processQueue fns queue).success then 1 else 0)
      ∧ (handleOnline true fns queue).1.count
            (OnlineEvent.toastFailed (processQueue fns queue).failed)
          = (if queue.isEmpty then 0
             else if 0 < (processQueue fns queue).failed then 1 else 0) := by
  cases queue with
  | nil =>
    refine ⟨rfl, rfl, rfl, rfl, rfl, rfl⟩
  | cons op rest =>
    have hne : (op :: rest).length > 0 := Nat.succ_pos _
    by_cases hs : 0 < (processQueue fns (op :: rest)).success <;>
      by_cases hf : 0 < (processQueue fns (op :: rest)).failed <;>
        simp [handleOnline, hne, hs, hf, List.count_cons, List.count_append,
          Nat.pos_iff_ne_zero]

/-! ### C1: user-initiated writes while offline never reach the queue -/

/-- Recognizer for the enqueue action. -/
def isEnqueueAction : WriteAction → Bool
  | .enqueueOp _ _ => true
  | _ => false

/-- Recognizer for the background remote estimate save. -/
def isRemoteSaveEstimateAction : WriteAction → Bool
  | .remoteSaveEstimate _ => true
  | _ => false

/-- C1.  The user-initiated write path (handleStatusChange) dispatches the
remote estimate save exactly once and never emits an enqueue action, and it
leaves the offline queue untouched, for every input including every
connectivity state: the handler does not consult connectivity and
queueOperation has no caller on this path, so a write attempted while
offline is submitted to the remote service (and merely toasts on failure)
instead of being queued. -/
theorem c1_status_change_never_enqueues (isOnline : Bool)
    (queue : List QueuedOperation) (est : Estimate)
    (inventory : List InventoryItem) (newStatus : JobStatus) :
    (handleStatusChange isOnline queue est inventory newStatus).queue = queue
      ∧ (handleStatusChange isOnline queue est inventory newStatus).actions.countP
          isEnqueueAction = 0
      ∧ (handleStatusChange isOnline queue est inventory newStatus).actions.countP
          isRemoteSaveEstimateAction = 1 := by
  have hbr : ∀ b : BranchOut,
      (statusBranch est inventory newStatus) = b →
        b.toasts.countP isEnqueueAction = 0
          ∧ b.toasts.countP isRemoteSaveEstimateAction = 0 := by
    intro b hb
    subst hb
    unfold statusBranch
    dsimp only
    repeat' split
    all_goals
      simp [List.countP_cons, List.countP_nil, isEnqueueAction,
        isRemoteSaveEstimateAction]
  obtain ⟨ht1, ht2⟩ := hbr _ rfl
  refine ⟨rfl, ?_, ?_⟩ <;>
    · simp only [handleStatusChange, List.countP_append, ht1, ht2]
      split <;>
        by_cases hic : (statusBranch est inventory newStatus).invChanged <;>
          simp [hic, List.countP_map, isEnqueueAction, isRemoteSaveEstimateAction,
            Function.comp, List.countP_cons]

/-! ### C4: phase ordering of the staged loader -/

/-- C4.  In a load cycle that is not superseded (no cancellation), the
initial-load-complete flag (starting false) becomes true exactly when every
phase fetch ultimately succeeded; and on the happy path the event trace is
exactly: settings fetched, settings merged, then the customers and
estimates fetches dispatched, then both merged only after both resolved,
then inventory fetched last, merged, and the initial load marked done —
so settings are fetched and merged strictly before customers or estimates
are requested, and the flag is set only after the inventory phase
completed. -/
theorem c4_staged_load_phase_order (o : LoadOracle) (first : Bool)
    (s0 : LoadState) (h0 : s0.initialLoadDone = false) :
    ((loadData o first false false false false s0).state.initialLoadDone = true
        ↔ ∃ s c e i, phaseResult o.getSettings = Except.ok s
            ∧ phaseResult o.getCustomers = Except.ok c
            ∧ phaseResult o.getEstimates = Except.ok e
            ∧ phaseResult o.getInventory = Except.ok i)
      ∧ ∀ s c e i, phaseResult o.getSettings = Except.ok s →
          phaseResult o.getCustomers = Except.ok c →
          phaseResult o.getEstimates = Except.ok e →
          phaseResult o.getInventory = Except.ok i →
          (loadData o first false false false false s0).trace
            = [LoadEvent.fetchSettings, LoadEvent.mergeSettings s,
               LoadEvent.fetchCustomers, LoadEvent.fetchEstimates,
               LoadEvent.mergeCustomers c, LoadEvent.mergeEstimates e,
               LoadEvent.fetchInventory, LoadEvent.mergeInventory i,
               LoadEvent.markInitialLoadDone] := by
  constructor
  · cases hS : phaseResult o.getSettings with
    | error e => simp [loadData, hS, loadFail, h0]
    | ok s =>
      cases hC : phaseResult o.getCustomers with
      | error ec => simp [loadData, hS, hC, loadFail, h0]
      | ok c =>
        cases hE : phaseResult o.getEstimates with
        | error ee => simp [loadData, hS, hC, hE, loadFail, h0]
        | ok e =>
          cases hI : phaseResult o.getInventory with
          | error ei => simp [loadData, hS, hC, hE, hI, loadFail, h0]
          | ok i => simp [loadData, hS, hC, hE, hI]
  · intro s c e i hS hC hE hI
    simp [loadData, hS, hC, hE, hI]

/-- C4 witness: a concrete oracle on which every phase succeeds
immediately, starting from the empty initial state. -/
def happyOracle : LoadOracle :=
  { getSettings := fun _ => Except.ok 1
  , getCustomers := fun _ => Except.ok 2
  , getEstimates := fun _ => Except.ok 3
  , getInventory := fun _ => Except.ok 4 }

/-- The initial application state before any load. -/
def initLoadState : LoadState :=
  { settings := 0, customers := 0, estimates := 0, inventory := 0
  , initialLoadDone := false, dataLoadError := none, isSyncing := false }

/-- C4 witness. -/
theorem c4_staged_load_phase_order_witness :
    (loadData happyOracle true false false false false initLoadState).state.initialLoadDone
        = true
      ∧ (loadData happyOracle true false false false false initLoadState).trace
          = [LoadEvent.fetchSettings, LoadEvent.mergeSettings 1,
             LoadEvent.fetchCustomers, LoadEvent.fetchEstimates,
             LoadEvent.mergeCustomers 2, LoadEvent.mergeEstimates 3,
             LoadEvent.fetchInventory, LoadEvent.mergeInventory 4,
             LoadEvent.markInitialLoadDone] :=
  ⟨(c4_staged_load_phase_order happyOracle true initLoadState rfl).1.mpr
      ⟨1, 2, 3, 4, rfl, rfl, rfl, rfl⟩,
   (c4_staged_load_phase_order happyOracle true initLoadState rfl).2
      1 2 3 4 rfl rfl rfl rfl⟩

/-! ### C5: failure of a phase after exhausted retries -/

/-- C5.  Whichever phase of a load cycle ultimately fails after exhausting
its retries, the cycle records the load error, keeps the state merged by
every phase that completed before the failure, retains all
previously-loaded (possibly stale) state instead of clearing it, leaves the
initial-load-complete flag exactly as it was (so it stays false on a
first-ever load), and emits the non-blocking sync-error notice exactly when
this was not the very first load.  The four hypothesis groups cover the
four possible failure points: the settings fetch, the customers fetch, the
estimates fetch (phase 2 merges only after both resolve, so a failing
estimates fetch leaves customers unmerged too), and the inventory fetch. -/
theorem c5_load_failure_retains_state
    (o1 o2 o3 o4 : LoadOracle) (first : Bool) (s0 : LoadState)
    (m1 m2 m3 m4 : String) (s2 s3 c3 s4 c4v e4 : Nat)
    (h1 : phaseResult o1.getSettings = Except.error m1)
    (h2a : phaseResult o2.getSettings = Except.ok s2)
    (h2b : phaseResult o2.getCustomers = Except.error m2)
    (h3a : phaseResult o3.getSettings = Except.ok s3)
    (h3b : phaseResult o3.getCustomers = Except.ok c3)
    (h3c : phaseResult o3.getEstimates = Except.error m3)
    (h4a : phaseResult o4.getSettings = Except.ok s4)
    (h4b : phaseResult o4.getCustomers = Except.ok c4v)
    (h4c : phaseResult o4.getEstimates = Except.ok e4)
    (h4d : phaseResult o4.getInventory = Except.error m4) :
    ((loadData o1 first false false false false s0).state.dataLoadError = some m1
      ∧ (loadData o1 first false false false false s0).state.settings = s0.settings
      ∧ (loadData o1 first false false false false s0).state.customers = s0.customers
      ∧ (loadData o1 first false false false false s0).state.estimates = s0.estimates
      ∧ (loadData o1 first false false false false s0).state.inventory = s0.inventory
      ∧ (loadData o1 first false false false false s0).state.initialLoadDone
          = s0.initialLoadDone
      ∧ (loadData o1 first false false false false s0).trace.count
          LoadEvent.toastSyncError = (if first then 0 else 1))
    ∧ ((loadData o2 first false false false false s0).state.dataLoadError = some m2
      ∧ (loadData o2 first false false false false s0).state.settings = s2
      ∧ (loadData o2 first false false false false s0).state.customers = s0.customers
      ∧ (loadData o2 first false false false false s0).state.estimates = s0.estimates
      ∧ (loadData o2 first false false false false s0).state.inventory = s0.inventory
      ∧ (loadData o2 first false false false false s0).state.initialLoadDone
          = s0.initialLoadDone
      ∧ (loadData o2 first false false false false s0).trace.count
          LoadEvent.toastSyncError = (if first then 0 else 1))
    ∧ ((loadData o3 first false false false false s0).state.dataLoadError = some m3
      ∧ (loadData o3 first false false false false s0).state.settings = s3
      ∧ (loadData o3 first false false false false s0).state.customers = s0.customers
      ∧ (loadData o3 first false false false false s0).state.estimates = s0.estimates
      ∧ (loadData o3 first false false false false s0).state.inventory = s0.inventory
      ∧ (loadData o3 first false false false false s0).state.initialLoadDone
          = s0.initialLoadDone
      ∧ (loadData o3 first false false false false s0).trace.count
          LoadEvent.toastSyncError = (if first then 0 else 1))
    ∧ ((loadData o4 first false false false false s0).state.dataLoadError = some m4
      ∧ (loadData o4 first false false false false s0).state.settings = s4
      ∧ (loadData o4 first false false false false s0).state.customers = c4v
      ∧ (loadData o4 first false false false false s0).state.estimates = e4
      ∧ (loadData o4 first false false false false s0).state.inventory = s0.inventory
      ∧ (loadData o4 first false false false false s0).state.initialLoadDone
          = s0.initialLoadDone
      ∧ (loadData o4 first false false false false s0).trace.count
          LoadEvent.toastSyncError = (if first then 0 else 1)) := by
  refine ⟨?_, ?_, ?_, ?_⟩
  · cases first <;>
      simp [loadData, h1, loadFail, List.count_append, List.count_cons]
  · cases hE : phaseResult o2.getEstimates <;> cases first <;>
      simp [loadData, h2a, h2b, hE, loadFail, List.count_append, List.count_cons]
  · cases first <;>
      simp [loadData, h3a, h3b, h3c, loadFail, List.count_append, List.count_cons]
  · cases first <;>
      simp [loadData, h4a, h4b, h4c, h4d, loadFail, List.count_append,
        List.count_cons]

/-- Oracle whose settings fetch always fails. -/
def failSettingsOracle : LoadOracle :=
  { getSettings := fun _ => Except.error "settings down"
  , getCustomers := fun _ => Except.ok 2
  , getEstimates := fun _ => Except.ok 3
  , getInventory := fun _ => Except.ok 4 }

/-- Oracle whose customers fetch always fails. -/
def failCustomersOracle : LoadOracle :=
  { getSettings := fun _ => Except.ok 1
  , getCustomers := fun _ => Except.error "customers down"
  , getEstimates := fun _ => Except.ok 3
  , getInventory := fun _ => Except.ok 4 }

/-- Oracle whose estimates fetch always fails. -/
def failEstimatesOracle : LoadOracle :=
  { getSettings := fun _ => Except.ok 1
  , getCustomers := fun _ => Except.ok 2
  , getEstimates := fun _ => Except.error "estimates down"
  , getInventory := fun _ => Except.ok 4 }

/-- Oracle whose inventory fetch always fails while the other three phases
succeed. -/
def failInventoryOracle : LoadOracle :=
  { getSettings := fun _ => Except.ok 1
  , getCustomers := fun _ => Except.ok 2
  , getEstimates := fun _ => Except.ok 3
  , getInventory := fun _ => Except.error "network down" }

/-- C5 witness: first-ever loads in which each of the four phases in turn
fails all attempts, from the empty initial state. -/
theorem c5_load_failure_retains_state_witness :
    ((loadData failSettingsOracle true false false false false initLoadState).state.dataLoadError
        = some "settings down"
      ∧ (loadData failSettingsOracle true false false false false initLoadState).state.settings
          = initLoadState.settings
      ∧ (loadData failSettingsOracle true false false false false initLoadState).state.customers
          = initLoadState.customers
      ∧ (loadData failSettingsOracle true false false false false initLoadState).state.estimates
          = initLoadState.estimates
      ∧ (loadData failSettingsOracle true false false false false initLoadState).state.inventory
          = initLoadState.inventory
      ∧ (loadData failSettingsOracle true false false false false initLoadState).state.initialLoadDone
          = initLoadState.initialLoadDone
      ∧ (loadData failSettingsOracle true false false false false initLoadState).trace.count
          LoadEvent.toastSyncError = (if true then 0 else 1))
    ∧ ((loadData failCustomersOracle true false false false false initLoadState).state.dataLoadError
        = some "customers down"
      ∧ (loadData failCustomersOracle true false false false false initLoadState).state.settings = 1
      ∧ (loadData failCustomersOracle true false false false false initLoadState).state.customers
          = initLoadState.customers
      ∧ (loadData failCustomersOracle true false false false false initLoadState).state.estimates
          = initLoadState.estimates
      ∧ (loadData failCustomersOracle true false false false false initLoadState).state.inventory
          = initLoadState.inventory
      ∧ (loadData failCustomersOracle true false false false false initLoadState).state.initialLoadDone
          = initLoadState.initialLoadDone
      ∧ (loadData failCustomersOracle true false false false false initLoadState).trace.count
          LoadEvent.toastSyncError = (if true then 0 else 1))
    ∧ ((loadData failEstimatesOracle true false false false false initLoadState).state.dataLoadError
        = some "estimates down"
      ∧ (loadData failEstimatesOracle true false false false false initLoadState).state.settings = 1
      ∧ (loadData failEstimatesOracle true false false false false initLoadState).state.customers
          = initLoadState.customers
      ∧ (loadData failEstimatesOracle true false false false false initLoadState).state.estimates
          = initLoadState.estimates
      ∧ (loadData failEstimatesOracle true false false false false initLoadState).state.inventory
          = initLoadState.inventory
      ∧ (loadData failEstimatesOracle true false false false false initLoadState).state.initialLoadDone
          = initLoadState.initialLoadDone
      ∧ (loadData failEstimatesOracle true false false false false initLoadState).trace.count
          LoadEvent.toastSyncError = (if true then 0 else 1))
    ∧ ((loadData failInventoryOracle true false false false false initLoadState).state.dataLoadError
        = some "network down"
      ∧ (loadData failInventoryOracle true false false false false initLoadState).state.settings = 1
      ∧ (loadData failInventoryOracle true false false false false initLoadState).state.customers = 2
      ∧ (loadData failInventoryOracle true false false false false initLoadState).state.estimates = 3
      ∧ (loadData failInventoryOracle true false false false false initLoadState).state.inventory
          = initLoadState.inventory
      ∧ (loadData failInventoryOracle true false false false false initLoadState).state.initialLoadDone
          = initLoadState.initialLoadDone
      ∧ (loadData failInventoryOracle true false false false false initLoadState).trace.count
          LoadEvent.toastSyncError = (if true then 0 else 1)) :=
  c5_load_failure_retains_state failSettingsOracle failCustomersOracle
    failEstimatesOracle failInventoryOracle true initLoadState
    "settings down" "customers down" "estimates down" "network down"
    1 1 2 1 2 3 rfl rfl rfl rfl rfl rfl rfl rfl rfl rfl

/-! ### C8, C9, C10: reconciliation helper lemmas -/

/-- An id-directed replacement map leaves a list unchanged when no element
matches. -/
theorem map_ite_eq_self {α : Type} (p : α → Bool) (n : α) :
    ∀ l : List α, (∀ x ∈ l, p x = false) →
      l.map (fun i => if p i then n else i) = l := by
  intro l
  induction l with
  | nil => intro _; rfl
  | cons a rest ih =>
    intro h
    have ha := h a (List.mem_cons_self a rest)
    have hrest := ih (fun x hx => h x (List.mem_cons_of_mem a hx))
    simp [ha, hrest]

/-- Membership gives contains for string lists. -/
theorem contains_of_mem (l : List String) (a : String) (h : a ∈ l) :
    l.contains a = true := by
  simpa [List.contains, List.elem_iff] using h

/-- Contains gives membership for string lists. -/
theorem mem_of_contains (l : List String) (a : String)
    (h : l.contains a = true) : a ∈ l := by
  simpa [List.contains, List.elem_iff] using h

/-! ### C8: the suppression window around an optimistic status change -/

/-- C8.  For every id that one handleStatusChange run adds to the
suppression set: during the window from the add instant until the sync
settles plus the 2000 ms grace delay, an incoming realtime update event for
that id is discarded by both the estimates and the inventory handlers, so
local state keeps the optimistic value; the scheduled removal instant is
the same whether the background sync succeeded or failed, so the set is not
left populated indefinitely; and at any instant at or after the removal the
window is empty and a subsequent event for the id is applied normally. -/
theorem c8_suppression_window (isOnline : Bool) (queue : List QueuedOperation)
    (est : Estimate) (inventory : List InventoryItem) (newStatus : JobStatus)
    (tAdd tSettle t t2 : Nat) (idX : String) (upd : Estimate)
    (invUpd : InventoryItem) (prevE : List Estimate) (prevI : List InventoryItem)
    (hmem : idX ∈ (handleStatusChange isOnline queue est inventory
        newStatus).suppressionAdds)
    (hne : idX ≠ "")
    (h1 : tAdd ≤ t) (h2 : t < tSettle + 2000) (h3 : tSettle + 2000 ≤ t2)
    (hu : upd.id = idX) (hiu : invUpd.id = idX) :
    estimatesRealtimeHandler
        (activeSuppressed (handleStatusChange isOnline queue est inventory
          newStatus).suppressionAdds tAdd tSettle t)
        (RTEvent.update upd) prevE = prevE
      ∧ inventoryRealtimeHandler
          (activeSuppressed (handleStatusChange isOnline queue est inventory
            newStatus).suppressionAdds tAdd tSettle t)
          (RTEvent.update invUpd) prevI = prevI
      ∧ suppressionRemovalTime tSettle true = suppressionRemovalTime tSettle false
      ∧ activeSuppressed (handleStatusChange isOnline queue est inventory
          newStatus).suppressionAdds tAdd tSettle t2 = []
      ∧ estimatesRealtimeHandler
          (activeSuppressed (handleStatusChange isOnline queue est inventory
            newStatus).suppressionAdds tAdd tSettle t2)
          (RTEvent.update upd) prevE
          = prevE.map (fun x => if x.id == upd.id then upd else x) := by
  have hwin : activeSuppressed (handleStatusChange isOnline queue est inventory
      newStatus).suppressionAdds tAdd tSettle t
      = (handleStatusChange isOnline queue est inventory newStatus).suppressionAdds := by
    simp [activeSuppressed, h1, h2]
  have hpost : activeSuppressed (handleStatusChange isOnline queue est inventory
      newStatus).suppressionAdds tAdd tSettle t2 = [] := by
    simp only [activeSuppressed, ite_eq_right_iff]
    intro hcon
    omega
  have hcontains := contains_of_mem _ _ hmem
  refine ⟨?_, ?_, rfl, hpost, ?_⟩
  · rw [hwin]
    simp [estimatesRealtimeHandler, rtEventId, hu, hne, hcontains, hmem]
  · rw [hwin]
    simp [inventoryRealtimeHandler, rtEventId, hiu, hne, hcontains, hmem]
  · rw [hpost]
    simp [estimatesRealtimeHandler, estimatesApplyEvent, rtEventId, hu, hne]

/-- Concrete fixtures for the suppression-window witness. -/
def estFix : Estimate :=
  { id := "e1", number := "0001", customerId := "c1", jobName := "job"
  , status := JobStatus.DRAFT, inventoryDeducted := false
  , setsRequiredOpen := 0, setsRequiredClosed := 0, items := [], total := 100 }

/-- The optimistic value of the fixture estimate after archiving. -/
def estFixArchived : Estimate := { estFix with status := JobStatus.ARCHIVED }

/-- A realtime update for the fixture estimate carrying a different remote
value. -/
def estFixRemote : Estimate := { estFix with jobName := "remote job" }

/-- A fixture inventory item sharing the suppressed id. -/
def invFix : InventoryItem :=
  { id := "e1", name := "n", category := "c", quantity := 1, unit := "u"
  , minLevel := 0 }

/-- C8 witness: archiving the fixture estimate adds its id to the set; an
update event for it at time 5 inside the window (sync settles at 10,
removal at 2010) is dropped, and the same event at time 2010 is applied. -/
theorem c8_suppression_window_witness :
    estimatesRealtimeHandler
        (activeSuppressed (handleStatusChange true [] estFix []
          JobStatus.ARCHIVED).suppressionAdds 0 10 5)
        (RTEvent.update estFixRemote) [estFixArchived] = [estFixArchived]
      ∧ inventoryRealtimeHandler
          (activeSuppressed (handleStatusChange true [] estFix []
            JobStatus.ARCHIVED).suppressionAdds 0 10 5)
          (RTEvent.update invFix) [] = []
      ∧ suppressionRemovalTime 10 true = suppressionRemovalTime 10 false
      ∧ activeSuppressed (handleStatusChange true [] estFix []
          JobStatus.ARCHIVED).suppressionAdds 0 10 2010 = []
      ∧ estimatesRealtimeHandler
          (activeSuppressed (handleStatusChange true [] estFix []
            JobStatus.ARCHIVED).suppressionAdds 0 10 2010)
          (RTEvent.update estFixRemote) [estFixArchived]
          = [estFixArchived].map
              (fun x => if x.id == estFixRemote.id then estFixRemote else x) :=
  c8_suppression_window true [] estFix [] JobStatus.ARCHIVED 0 10 5 2010 "e1"
    estFixRemote invFix [estFixArchived] []
    (by decide) (by decide) (by decide) (by decide) (by decide) rfl rfl

/-! ### C9: suppression check across the four realtime handlers -/

/-- Concrete suppression set holding the id of the settings row. -/
def supFix : List String := ["srow1"]

/-- Settings currently in local state. -/
def prevSettingsFix : AppSettings :=
  { companyName := "Old Co", companyAddress := "", companyPhone := ""
  , companyEmail := "", logoUrl := none, openCellYield := 0
  , closedCellYield := 0, openCellCost := 0, closedCellCost := 0
  , laborRate := 0, taxRate := 0 }

/-- Settings value carried by an incoming realtime event. -/
def updSettingsFix : AppSettings := { prevSettingsFix with companyName := "New Co" }

/-- C9 counterexample.  The claim covers all four collections, but the
settings realtime handler consults no suppression set: an update event for
the settings row whose id is in the suppression set is applied anyway and
changes local state. -/
theorem c9_counterexample_settings_not_suppressed :
    settingsRealtimeHandler supFix "srow1" RTKind.update updSettingsFix
        prevSettingsFix = updSettingsFix
      ∧ updSettingsFix ≠ prevSettingsFix
      ∧ supFix.contains "srow1" = true :=
  ⟨rfl, by decide, rfl⟩

/-- When the guard of the inventory handler extracts a suppressed id, the
event is dropped and the previous state returned. -/
theorem inventoryRealtimeHandler_drop (sup : List String)
    (ev : RTEvent InventoryItem) (prev : List InventoryItem) (j : String)
    (hid : rtEventId (fun i => i.id) ev = some j)
    (hm : sup.contains j = true) :
    inventoryRealtimeHandler sup ev prev = prev := by
  have hj : j ∈ sup := mem_of_contains sup j hm
  unfold inventoryRealtimeHandler
  rw [hid]
  simp [hj]

/-- When the guard of the estimates handler extracts a suppressed id, the
event is dropped and the previous state returned. -/
theorem estimatesRealtimeHandler_drop (sup : List String)
    (ev : RTEvent Estimate) (prev : List Estimate) (j : String)
    (hid : rtEventId (fun e : Estimate => e.id) ev = some j)
    (hm : sup.contains j = true) :
    estimatesRealtimeHandler sup ev prev = prev := by
  have hj : j ∈ sup := mem_of_contains sup j hm
  unfold estimatesRealtimeHandler
  rw [hid]
  simp [hj]

/-- When the guard of the customers handler extracts a suppressed id, the
event is dropped and the previous state returned. -/
theorem customersRealtimeHandler_drop (sup : List String)
    (ev : RTEvent Customer) (prev : List Customer) (j : String)
    (hid : rtEventId (fun c : Customer => c.id) ev = some j)
    (hm : sup.contains j = true) :
    customersRealtimeHandler sup ev prev = prev := by
  have hj : j ∈ sup := mem_of_contains sup j hm
  unfold customersRealtimeHandler
  rw [hid]
  simp [hj]

/-- C9 amended.  For the customers, estimates and inventory collections, an
incoming realtime event whose (non-empty) entity id is in the suppression
set is discarded, leaving local state unchanged; settings events are
applied unconditionally, with no suppression check. -/
theorem c9_amended_suppression_three_collections (sup : List String)
    (nI : InventoryItem) (nE : Estimate) (nC : Customer)
    (prevI : List InventoryItem) (prevE : List Estimate) (prevC : List Customer)
    (rowId : String) (updS prevS : AppSettings)
    (hI : sup.contains nI.id = true) (hIne : nI.id ≠ "")
    (hE : sup.contains nE.id = true) (hEne : nE.id ≠ "")
    (hC : sup.contains nC.id = true) (hCne : nC.id ≠ "") :
    inventoryRealtimeHandler sup (RTEvent.update nI) prevI = prevI
      ∧ inventoryRealtimeHandler sup (RTEvent.insert nI) prevI = prevI
      ∧ inventoryRealtimeHandler sup (RTEvent.del nI.id) prevI = prevI
      ∧ estimatesRealtimeHandler sup (RTEvent.update nE) prevE = prevE
      ∧ estimatesRealtimeHandler sup (RTEvent.insert nE) prevE = prevE
      ∧ estimatesRealtimeHandler sup (RTEvent.del nE.id) prevE = prevE
      ∧ customersRealtimeHandler sup (RTEvent.update nC) prevC = prevC
      ∧ customersRealtimeHandler sup (RTEvent.insert nC) prevC = prevC
      ∧ customersRealtimeHandler sup (RTEvent.del nC.id) prevC = prevC
      ∧ settingsRealtimeHandler sup rowId RTKind.update updS prevS = updS := by
  have hidI : rtEventId (fun i : InventoryItem => i.id) (RTEvent.update nI)
      = some nI.id := by simp [rtEventId, hIne]
  have hidI2 : rtEventId (fun i : InventoryItem => i.id) (RTEvent.insert nI)
      = some nI.id := by simp [rtEventId, hIne]
  have hidI3 : rtEventId (fun i : InventoryItem => i.id) (RTEvent.del nI.id)
      = some nI.id := by simp [rtEventId, hIne]
  have hidE : rtEventId (fun e : Estimate => e.id) (RTEvent.update nE)
      = some nE.id := by simp [rtEventId, hEne]
  have hidE2 : rtEventId (fun e : Estimate => e.id) (RTEvent.insert nE)
      = some nE.id := by simp [rtEventId, hEne]
  have hidE3 : rtEventId (fun e : Estimate => e.id) (RTEvent.del nE.id)
      = some nE.id := by simp [rtEventId, hEne]
  have hidC : rtEventId (fun c : Customer => c.id) (RTEvent.update nC)
      = some nC.id := by simp [rtEventId, hCne]
  have hidC2 : rtEventId (fun c : Customer => c.id) (RTEvent.insert nC)
      = some nC.id := by simp [rtEventId, hCne]
  have hidC3 : rtEventId (fun c : Customer => c.id) (RTEvent.del nC.id)
      = some nC.id := by simp [rtEventId, hCne]
  exact ⟨inventoryRealtimeHandler_drop sup _ prevI nI.id hidI hI,
    inventoryRealtimeHandler_drop sup _ prevI nI.id hidI2 hI,
    inventoryRealtimeHandler_drop sup _ prevI nI.id hidI3 hI,
    estimatesRealtimeHandler_drop sup _ prevE nE.id hidE hE,
    estimatesRealtimeHandler_drop sup _ prevE nE.id hidE2 hE,
    estimatesRealtimeHandler_drop sup _ prevE nE.id hidE3 hE,
    customersRealtimeHandler_drop sup _ prevC nC.id hidC hC,
    customersRealtimeHandler_drop sup _ prevC nC.id hidC2 hC,
    customersRealtimeHandler_drop sup _ prevC nC.id hidC3 hC, rfl⟩

/-- A fixture customer whose id sits in the suppression set. -/
def custFix : Customer :=
  { id := "srow1", name := "A", companyName := "B", email := "", phone := "" }

/-- A fixture estimate whose id sits in the suppression set. -/
def estSupFix : Estimate := { estFix with id := "srow1" }

/-- A fixture inventory item whose id sits in the suppression set. -/
def invSupFix : InventoryItem := { invFix with id := "srow1" }

/-- C9 witness: concrete suppressed events on all three guarded
collections are dropped while the settings event goes through. -/
theorem c9_amended_suppression_witness :
    inventoryRealtimeHandler supFix (RTEvent.update invSupFix) [] = []
      ∧ inventoryRealtimeHandler supFix (RTEvent.insert invSupFix) [] = []
      ∧ inventoryRealtimeHandler supFix (RTEvent.del invSupFix.id) [] = []
      ∧ estimatesRealtimeHandler supFix (RTEvent.update estSupFix) [] = []
      ∧ estimatesRealtimeHandler supFix (RTEvent.insert estSupFix) [] = []
      ∧ estimatesRealtimeHandler supFix (RTEvent.del estSupFix.id) [] = []
      ∧ customersRealtimeHandler supFix (RTEvent.update custFix) [] = []
      ∧ customersRealtimeHandler supFix (RTEvent.insert custFix) [] = []
      ∧ customersRealtimeHandler supFix (RTEvent.del custFix.id) [] = []
      ∧ settingsRealtimeHandler supFix "srow1" RTKind.update updSettingsFix
          prevSettingsFix = updSettingsFix :=
  c9_amended_suppression_three_collections supFix invSupFix estSupFix custFix
    [] [] [] "srow1" updSettingsFix prevSettingsFix
    rfl (by decide) rfl (by decide) rfl (by decide)

/-! ### C10: idempotent insert reconciliation, no-op update and delete -/

/-- Whenever the unsuppressed transformation fixes the state, so does the
full inventory handler, whatever the suppression set. -/
theorem inventoryRealtimeHandler_eq (sup : List String)
    (ev : RTEvent InventoryItem) (prev : List InventoryItem)
    (h : inventoryApplyEvent ev prev = prev) :
    inventoryRealtimeHandler sup ev prev = prev := by
  unfold inventoryRealtimeHandler
  cases rtEventId (fun i => i.id) ev <;> simp [h]

/-- Whenever the unsuppressed transformation fixes the state, so does the
full estimates handler, whatever the suppression set. -/
theorem estimatesRealtimeHandler_eq (sup : List String)
    (ev : RTEvent Estimate) (prev : List Estimate)
    (h : estimatesApplyEvent ev prev = prev) :
    estimatesRealtimeHandler sup ev prev = prev := by
  unfold estimatesRealtimeHandler
  cases rtEventId (fun e : Estimate => e.id) ev <;> simp [h]

/-- An inventory insert either leaves the state unchanged or appends the
new item at the end. -/
theorem inventoryRealtimeHandler_insert_result (sup : List String)
    (n : InventoryItem) (prev : List InventoryItem) :
    inventoryRealtimeHandler sup (RTEvent.insert n) prev = prev
      ∨ inventoryRealtimeHandler sup (RTEvent.insert n) prev = prev ++ [n] := by
  unfold inventoryRealtimeHandler
  cases hid : rtEventId (fun i : InventoryItem => i.id) (RTEvent.insert n) with
  | none =>
    by_cases hany : prev.any (fun i => i.id == n.id) = true
    · left
      simp [inventoryApplyEvent, hany]
    · right
      simp [inventoryApplyEvent, hany]
  | some j =>
    by_cases hm : j ∈ sup
    · left
      simp [hm]
    · by_cases hany : prev.any (fun i => i.id == n.id) = true
      · left
        simp [hm, inventoryApplyEvent, hany]
      · right
        simp [hm, inventoryApplyEvent, hany]

/-- An estimates insert either leaves the state unchanged or prepends the
new estimate. -/
theorem estimatesRealtimeHandler_insert_result (sup : List String)
    (n : Estimate) (prev : List Estimate) :
    estimatesRealtimeHandler sup (RTEvent.insert n) prev = prev
      ∨ estimatesRealtimeHandler sup (RTEvent.insert n) prev = n :: prev := by
  unfold estimatesRealtimeHandler
  cases hid : rtEventId (fun e : Estimate => e.id) (RTEvent.insert n) with
  | none =>
    by_cases hany : prev.any (fun e => e.id == n.id) = true
    · left
      simp [estimatesApplyEvent, hany]
    · right
      simp [estimatesApplyEvent, hany]
  | some j =>
    by_cases hm : j ∈ sup
    · left
      simp [hm]
    · by_cases hany : prev.any (fun e => e.id == n.id) = true
      · left
        simp [hm, estimatesApplyEvent, hany]
      · right
        simp [hm, estimatesApplyEvent, hany]

/-- C10.  Applying a realtime insert whose id is already present leaves the
collection unchanged; delivering the same insert twice never creates a
duplicate (the second application is the identity on the result of the
first, for any starting state); and update and delete events are no-ops
when no entity with the matching id is present — for both the inventory
and the estimates handlers. -/
theorem c10_insert_idempotent_update_delete_noop (sup : List String)
    (prevA : List InventoryItem) (nA : InventoryItem)
    (prevB : List InventoryItem) (nB : InventoryItem)
    (prevC0 : List InventoryItem) (oidC : String)
    (prevD : List Estimate) (nD : Estimate)
    (prevE2 : List Estimate) (nE2 : Estimate)
    (prevF : List Estimate) (oidF : String)
    (freshI : List InventoryItem) (mI : InventoryItem)
    (freshE : List Estimate) (mE : Estimate)
    (hA : prevA.any (fun x => x.id == nA.id) = true)
    (hB : ∀ x ∈ prevB, (x.id == nB.id) = false)
    (hC : ∀ x ∈ prevC0, (x.id == oidC) = false)
    (hD : prevD.any (fun x => x.id == nD.id) = true)
    (hE2 : ∀ x ∈ prevE2, (x.id == nE2.id) = false)
    (hF : ∀ x ∈ prevF, (x.id == oidF) = false) :
    inventoryRealtimeHandler sup (RTEvent.insert nA) prevA = prevA
      ∧ inventoryRealtimeHandler sup (RTEvent.insert mI)
          (inventoryRealtimeHandler sup (RTEvent.insert mI) freshI)
          = inventoryRealtimeHandler sup (RTEvent.insert mI) freshI
      ∧ inventoryRealtimeHandler sup (RTEvent.update nB) prevB = prevB
      ∧ inventoryRealtimeHandler sup (RTEvent.del oidC) prevC0 = prevC0
      ∧ estimatesRealtimeHandler sup (RTEvent.insert nD) prevD = prevD
      ∧ estimatesRealtimeHandler sup (RTEvent.insert mE)
          (estimatesRealtimeHandler sup (RTEvent.insert mE) freshE)
          = estimatesRealtimeHandler sup (RTEvent.insert mE) freshE
      ∧ estimatesRealtimeHandler sup (RTEvent.update nE2) prevE2 = prevE2
      ∧ estimatesRealtimeHandler sup (RTEvent.del oidF) prevF = prevF := by
  refine ⟨inventoryRealtimeHandler_eq sup _ prevA (by simp [inventoryApplyEvent, hA]),
    ?_,
    inventoryRealtimeHandler_eq sup _ prevB
      (by simpa [inventoryApplyEvent]
        using map_ite_eq_self (fun x : InventoryItem => x.id == nB.id) nB prevB hB),
    inventoryRealtimeHandler_eq sup _ prevC0 ?_,
    estimatesRealtimeHandler_eq sup _ prevD (by simp [estimatesApplyEvent, hD]),
    ?_,
    estimatesRealtimeHandler_eq sup _ prevE2
      (by simpa [estimatesApplyEvent]
        using map_ite_eq_self (fun x : Estimate => x.id == nE2.id) nE2 prevE2 hE2),
    estimatesRealtimeHandler_eq sup _ prevF ?_⟩
  · rcases inventoryRealtimeHandler_insert_result sup mI freshI with h | h
    · simp only [h]
    · rw [h]
      exact inventoryRealtimeHandler_eq sup _ _
        (by simp [inventoryApplyEvent, List.any_append])
  · have hfil : prevC0.filter (fun i => i.id != oidC) = prevC0 :=
      List.filter_eq_self.mpr (fun a ha => by simpa using hC a ha)
    by_cases hoid : oidC = "" <;> simp [inventoryApplyEvent, hoid, hfil]
  · rcases estimatesRealtimeHandler_insert_result sup mE freshE with h | h
    · simp only [h]
    · rw [h]
      exact estimatesRealtimeHandler_eq sup _ _
        (by simp [estimatesApplyEvent])
  · have hfilE : prevF.filter (fun e => e.id != oidF) = prevF :=
      List.filter_eq_self.mpr (fun a ha => by simpa using hF a ha)
    by_cases hoid : oidF = "" <;> simp [estimatesApplyEvent, hoid, hfilE]

/-- C10 witness: duplicate insert delivery and no-op update and delete on
concrete states. -/
theorem c10_insert_idempotent_witness :
    inventoryRealtimeHandler [] (RTEvent.insert invFix) [invFix] = [invFix]
      ∧ inventoryRealtimeHandler [] (RTEvent.insert invFix)
          (inventoryRealtimeHandler [] (RTEvent.insert invFix) [])
          = inventoryRealtimeHandler [] (RTEvent.insert invFix) []
      ∧ inventoryRealtimeHandler [] (RTEvent.update invSupFix) [invFix] = [invFix]
      ∧ inventoryRealtimeHandler [] (RTEvent.del "absent") [invFix] = [invFix]
      ∧ estimatesRealtimeHandler [] (RTEvent.insert estFix) [estFix] = [estFix]
      ∧ estimatesRealtimeHandler [] (RTEvent.insert estFix)
          (estimatesRealtimeHandler [] (RTEvent.insert estFix) [])
          = estimatesRealtimeHandler [] (RTEvent.insert estFix) []
      ∧ estimatesRealtimeHandler [] (RTEvent.update estSupFix) [estFix] = [estFix]
      ∧ estimatesRealtimeHandler [] (RTEvent.del "absent") [estFix] = [estFix] :=
  c10_insert_idempotent_update_delete_noop [] [invFix] invFix [invFix] invSupFix
    [invFix] "absent" [estFix] estFix [estFix] estSupFix [estFix] "absent"
    [] invFix [] estFix
    (by decide) (by decide) (by decide) (by decide) (by decide) (by decide)

end Foam
